import Mathlib

/-
Shallow embedding of the `ai_thumbnail` repository: the five Genkit flows
(`optimize-prompt.ts`, `generate-thumbnail-from-prompt.ts`,
`iteratively-edit-thumbnail.ts`, the batch flow and the intelligent-fusion
flow), the server action handlers (`src/app/actions.ts`) and the UI state
handlers of the main page component.

The external AI provider is modelled by an oracle giving the outcome of each
`ai.generate` call: either a thrown error (`Except.error`) or a returned
response.  For image calls the response carries `media?.url` as an
`Option String` (`none` = no media/url field); JavaScript truthiness of the
url (and of optional string inputs) is modelled by `truthy`, under which the
empty string is falsy, exactly as in JS.
-/

set_option maxRecDepth 20000

namespace AIThumb

/-- JavaScript truthiness of an optional string (`undefined` and `""` are
falsy). -/
def truthy : Option String → Bool
  | none => false
  | some s => !(s == "")

/-- Model of JavaScript `String.prototype.trim`: drop whitespace from both
ends. -/
def jsTrim (s : String) : String :=
  ⟨((s.data.dropWhile Char.isWhitespace).reverse.dropWhile Char.isWhitespace).reverse⟩

/-- Model of JavaScript division producing a finite number: `a / b` when
`b ≠ 0`, and `none` when `b = 0` (JS yields `NaN` for `0/0`, not a valid
ratio). -/
def jsDiv (a b : ℚ) : Option ℚ := if b = 0 then none else some (a / b)

/-- `pat` occurs as a contiguous substring of `s`. -/
def strContains (s pat : String) : Prop := pat.data <:+: s.data

instance (s pat : String) : Decidable (strContains s pat) := by
  unfold strContains; infer_instance

/-- The aspect-ratio enumeration `z.enum(['16:9', '9:16', '1:1'])`. -/
inductive AspectRatio where
  | r16x9
  | r9x16
  | r1x1
deriving DecidableEq

/-- The string carried by each aspect-ratio enum value (what JS interpolation
of the value produces). -/
def AspectRatio.str : AspectRatio → String
  | .r16x9 => "16:9"
  | .r9x16 => "9:16"
  | .r1x1 => "1:1"

/-- One element of the `prompt` array handed to `ai.generate`: an inline
media part or a text part. -/
inductive Part where
  | media (url : String)
  | text (t : String)
deriving DecidableEq

/-- One `ai.generate` request: the `system` instruction string plus the
ordered list of prompt parts. -/
structure GenRequest where
  system : String
  parts : List Part
deriving DecidableEq

/-! ## optimize-prompt.ts -/

structure OptimizePromptInput where
  prompt : String
  aspectRatio : AspectRatio
  image1 : Option String := none
  image2 : Option String := none
  image3 : Option String := none

structure OptimizePromptOutput where
  optimizedPrompt : String
deriving DecidableEq

/-- `[input.image1, input.image2, input.image3].filter(Boolean)` turned into
media parts. -/
def optimizeImageParts (i : OptimizePromptInput) : List Part :=
  (([i.image1, i.image2, i.image3].filter truthy).map (fun o => Part.media (o.getD "")))

/-- `providedImagesCount` in `optimizePromptFlow`. -/
def providedImagesCount (i : OptimizePromptInput) : Nat :=
  ([i.image1, i.image2, i.image3].filter truthy).length

/-- `assetContext` in `optimizePromptFlow`. -/
def assetContext (i : OptimizePromptInput) : String :=
  if providedImagesCount i ≠ 0 then
    "The user also provided " ++ toString (providedImagesCount i) ++ " reference image"
      ++ (if 1 < providedImagesCount i then "s" else "")
      ++ ". Consider them when composing the scene."
  else
    "No reference images were provided."

/-- `ratioRule` in `optimizePromptFlow`: the aspect-ratio sentence of the
optimizer's system instruction. -/
def ratioRule (ar : AspectRatio) : String :=
  if ar = .r9x16 then
    "The final image MUST have an aspect ratio of exactly 9:16 (vertical). Do not add any padding or black bars. Do NOT crop or cut any text or subjects; instead, scale and reposition elements so that all content remains fully inside the 9:16 frame with comfortable safe margins."
  else
    "The final image MUST have an aspect ratio of exactly " ++ ar.str ++ ". Do not add any padding or black bars. Crop the image to fit the requested aspect ratio if necessary."

/-- The optimizer's full `system` instruction string. -/
def optimizeSystem (ar : AspectRatio) : String :=
  "You are an expert prompt engineer for a text-to-image model. Your task is to take a user's simple prompt and expand it into a rich, detailed, and creative prompt that will generate a visually stunning and effective thumbnail.\n\nYou must follow these rules:\n1.  **Incorporate Aspect Ratio**: "
    ++ ratioRule ar
    ++ "\n2.  **Describe Composition**: Detail the layout, including subject placement, background elements, and foreground details. Use terms like \"rule of thirds,\" \"leading lines,\" \"depth of field,\" etc.\n3.  **Specify Style**: Define the artistic style. Examples: \"hyper-realistic photo,\" \"cinematic 4k,\" \"digital painting,\" \"anime style,\" \"vibrant illustration,\" \"dramatic lighting.\"\n4.  **Enhance Details**: Add specific details about colors, lighting, textures, and mood. Be descriptive and evocative.\n5.  **Incorporate User Images**: If the user has provided reference images, your prompt should instruct the image model to incorporate them creatively into the final composition.\n6.  **Keep it a single paragraph. Do not use lists or bullet points.**\n7.  **Output only the prompt itself, with no extra text or explanation.**"

/-- The optimizer's `ai.generate` request. -/
def optimizeRequest (i : OptimizePromptInput) : GenRequest :=
  { system := optimizeSystem i.aspectRatio
    parts := optimizeImageParts i ++
      [Part.text ("User prompt: \"" ++ i.prompt ++ "\"\nAspect ratio: "
        ++ i.aspectRatio.str ++ "\n" ++ assetContext i)] }

/-- The deterministic local fallback string produced by `optimizePromptFlow`
when the model call throws or returns no usable text (both catch branches
build the identical template, then `.trim()` it). -/
def optimizeFallback (i : OptimizePromptInput) : String :=
  jsTrim ("Create an eye-catching thumbnail. Aspect ratio: " ++ i.aspectRatio.str
    ++ ". Crop to fit with no padding or black bars. Emphasize strong composition (rule of thirds, leading lines), clear subject separation, and dramatic lighting. Reflect the following intent: "
    ++ i.prompt ++ ". "
    ++ (if providedImagesCount i ≠ 0 then "Incorporate the provided reference images appropriately." else ""))

/-- `optimizePromptFlow`.  The oracle is the outcome of the one text-model
call: a thrown error, or a response whose usable text
(`response.text || response.output?.text`) is the given `Option String`
(`none`/`some ""` = no usable text, both falsy in JS). -/
def optimizePromptFlow (oracle : Except String (Option String))
    (input : OptimizePromptInput) : OptimizePromptOutput :=
  match oracle with
  | .error _ => ⟨optimizeFallback input⟩
  | .ok t => if truthy t then ⟨t.getD ""⟩ else ⟨optimizeFallback input⟩

/-! ## generate-thumbnail-from-prompt.ts (single-thumbnail flow) -/

structure GenerateThumbnailFromPromptInput where
  prompt : String
  image1 : Option String := none
  image2 : Option String := none
  image3 : Option String := none
  aspectRatio : AspectRatio

structure GenerateThumbnailFromPromptOutput where
  thumbnail : String
deriving DecidableEq

/-- The `mediaParts` pushed by the three `if (input.imageK)` tests. -/
def optMedia : Option String → List Part
  | none => []
  | some s => if s == "" then [] else [Part.media s]

/-- The generator's `system` instruction string. -/
def generateSystem (ar : AspectRatio) : String :=
  "You are an expert image generator.\n"
    ++ (if ar = .r9x16 then
      "You MUST generate an image with an aspect ratio of EXACTLY 9:16 (vertical). Do not add any padding or black bars. Do NOT crop or cut any text or subjects; instead, scale and reposition elements so that all content remains fully inside the 9:16 frame with comfortable safe margins."
    else
      "You MUST generate an image with an aspect ratio of EXACTLY " ++ ar.str ++ ". Do not add any padding or black bars. Crop the image to fit the requested aspect ratio if necessary.")
    ++ "\n"

/-- The generator's `ai.generate` request. -/
def generateRequest (i : GenerateThumbnailFromPromptInput) : GenRequest :=
  { system := generateSystem i.aspectRatio
    parts := optMedia i.image1 ++ optMedia i.image2 ++ optMedia i.image3
      ++ [Part.text ("User prompt: " ++ i.prompt)] }

/-- `generateThumbnailFromPromptFlow`.  The oracle maps the issued request to
the call's outcome: a thrown error, or `media?.url` as an `Option String`.
If the url is falsy (`!media?.url`) the flow throws its explicit error. -/
def generateThumbnailFromPromptFlow
    (oracle : GenRequest → Except String (Option String))
    (input : GenerateThumbnailFromPromptInput) :
    Except String GenerateThumbnailFromPromptOutput :=
  match oracle (generateRequest input) with
  | .error e => .error e
  | .ok m =>
    if truthy m then .ok ⟨m.getD ""⟩
    else .error "Image generation did not return an image."

/-! ## iteratively-edit-thumbnail.ts -/

structure IterativelyEditThumbnailInput where
  baseImage : String
  prompt : String
  aspectRatio : AspectRatio

structure IterativelyEditThumbnailOutput where
  editedThumbnail : String
deriving DecidableEq

/-- The editor's `system` instruction string. -/
def editSystem (ar : AspectRatio) : String :=
  "You are an expert image editor.\n"
    ++ (if ar = .r9x16 then
      "You MUST edit the image to have an aspect ratio of EXACTLY 9:16 (vertical). Do not add any padding or black bars. Do NOT crop or cut any text or subjects; instead, scale and reposition elements so that all content remains fully inside the 9:16 frame with comfortable safe margins."
    else
      "You MUST edit the image to have an aspect ratio of EXACTLY " ++ ar.str ++ ". Do not add any padding or black bars. Crop the image to fit the requested aspect ratio if necessary.")
    ++ "\n"

/-- The editor's `ai.generate` request. -/
def editRequest (i : IterativelyEditThumbnailInput) : GenRequest :=
  { system := editSystem i.aspectRatio
    parts := [Part.media i.baseImage, Part.text ("User edit prompt: " ++ i.prompt)] }

/-- `iterativelyEditThumbnailFlow`; `!media || !media.url` throws the flow's
explicit error. -/
def iterativelyEditThumbnailFlow
    (oracle : GenRequest → Except String (Option String))
    (input : IterativelyEditThumbnailInput) :
    Except String IterativelyEditThumbnailOutput :=
  match oracle (editRequest input) with
  | .error e => .error e
  | .ok m =>
    if truthy m then .ok ⟨m.getD ""⟩
    else .error "Failed to generate or edit thumbnail."

/-! ## batch-generate-thumbnails (second flow of generate-thumbnail-from-prompt.ts's file group) -/

/-- `z.enum(['character', 'style', 'theme', 'none'])`. -/
inductive ConsistencyMode where
  | character
  | style
  | theme
  | none
deriving DecidableEq

/-- The string carried by each consistency-mode enum value. -/
def ConsistencyMode.str : ConsistencyMode → String
  | .character => "character"
  | .style => "style"
  | .theme => "theme"
  | .none => "none"

structure BatchGenerateInput where
  prompts : List String
  basePrompt : String
  aspectRatio : AspectRatio
  styleReference : Option String := Option.none
  characterReference : Option String := Option.none
  consistencyMode : ConsistencyMode

/-- One entry of the batch output's `thumbnails` array. -/
structure BatchThumb where
  image : String
  prompt : String
  index : Nat
deriving DecidableEq

structure BatchGenerateOutput where
  thumbnails : List BatchThumb
  consistency_score : Option ℚ
deriving DecidableEq

/-- `consistencyInstruction` selected by `input.consistencyMode` (the
`character`/`style` branches also require the corresponding reference image
to be truthy). -/
def consistencyInstruction (i : BatchGenerateInput) : String :=
  if i.consistencyMode = .character ∧ truthy i.characterReference then
    " CRITICAL: Maintain exact character consistency - same facial features, hair, clothing style, and character design as shown in the reference image. The character should be immediately recognizable across all variations."
  else if i.consistencyMode = .style ∧ truthy i.styleReference then
    " CRITICAL: Apply the exact artistic style, color palette, lighting technique, brushwork, and visual treatment from the reference image to create a cohesive series."
  else if i.consistencyMode = .theme then
    " CRITICAL: Maintain thematic consistency - same mood, color scheme, composition style, and visual hierarchy across all thumbnails in this series."
  else ""

/-- `referenceImages` pushed alongside `consistencyInstruction`. -/
def referenceImages (i : BatchGenerateInput) : List Part :=
  if i.consistencyMode = .character ∧ truthy i.characterReference then
    [Part.media (i.characterReference.getD "")]
  else if i.consistencyMode = .style ∧ truthy i.styleReference then
    [Part.media (i.styleReference.getD "")]
  else []

/-- `enhancedPrompt` built for the prompt `p` of one batch item (the template
literal keeps the source file's indentation). -/
def enhancedPrompt (i : BatchGenerateInput) (p : String) : String :=
  i.basePrompt ++ " " ++ p ++ consistencyInstruction i
    ++ " \n      \n      TECHNICAL REQUIREMENTS:\n      - Aspect ratio: exactly "
    ++ i.aspectRatio.str
    ++ "\n      - Professional thumbnail quality with high visual impact\n      - Clear focal point and readable text elements\n      - Consistent branding and style throughout the series\n      - Optimized for "
    ++ (if i.aspectRatio = .r16x9 then "YouTube thumbnails"
        else if i.aspectRatio = .r9x16 then "vertical social media"
        else "square social posts")

/-- The batch flow's `system` instruction string. -/
def batchSystem (i : BatchGenerateInput) : String :=
  "You are an expert thumbnail designer specializing in creating consistent, high-impact visual series. You excel at maintaining visual consistency across multiple designs while ensuring each thumbnail is unique and engaging.\n\n"
    ++ (if i.aspectRatio = .r9x16 then
      "Generate vertical 9:16 thumbnails. Keep all text and visual elements fully inside the frame with comfortable safe margins. Do NOT crop or cut any content; instead, scale and reposition elements to fit the vertical format."
    else
      "Generate thumbnails with exact aspect ratio " ++ i.aspectRatio.str ++ ". Ensure all elements fit properly within the frame.")
    ++ "\n\nFocus on:\n- Visual consistency "
    ++ (if i.consistencyMode ≠ .none then
          "(" ++ i.consistencyMode.str ++ " consistency is CRITICAL)"
        else "")
    ++ "\n- High contrast and readability\n- Professional design quality\n- Thumbnail-optimized composition\n- Clear visual hierarchy"

/-- The `ai.generate` request issued by batch item `idx`. -/
def batchRequest (i : BatchGenerateInput) (idx : Nat) : GenRequest :=
  { system := batchSystem i
    parts := referenceImages i ++ [Part.text (enhancedPrompt i (i.prompts.getD idx ""))] }

/-- The batch flow's `for` loop over a list of item indices.  The oracle gives
the outcome of each item's `ai.generate` call.  A throw is caught and skipped;
a response whose `media?.url` is truthy is pushed as a `{image, prompt, index}`
entry.  Returns the pushed entries and the list of indices for which a
provider call was issued (one call per loop iteration). -/
def batchLoop (oracle : Nat → Except String (Option String))
    (prompts : List String) : List Nat → List BatchThumb × List Nat
  | [] => ([], [])
  | idx :: rest =>
    match oracle idx with
    | .ok m =>
      if truthy m then
        (⟨m.getD "", prompts.getD idx "", idx⟩ :: (batchLoop oracle prompts rest).1,
         idx :: (batchLoop oracle prompts rest).2)
      else ((batchLoop oracle prompts rest).1, idx :: (batchLoop oracle prompts rest).2)
    | .error _ => ((batchLoop oracle prompts rest).1, idx :: (batchLoop oracle prompts rest).2)

/-- `batchGenerateFlow`'s body: loop over `0 … prompts.length - 1`, then
return the collected thumbnails plus
`consistency_score = thumbnails.length / prompts.length` (JS division).
The second component is the trace of issued provider calls. -/
def batchGenerateRun (oracle : Nat → Except String (Option String))
    (i : BatchGenerateInput) : BatchGenerateOutput × List Nat :=
  ({ thumbnails := (batchLoop oracle i.prompts (List.range i.prompts.length)).1
     consistency_score :=
       jsDiv ((batchLoop oracle i.prompts (List.range i.prompts.length)).1.length : ℚ)
         (i.prompts.length : ℚ) },
   (batchLoop oracle i.prompts (List.range i.prompts.length)).2)

/-- `batchGenerateFlow` (never throws: every per-item failure is caught inside
the loop). -/
def batchGenerateFlow (oracle : Nat → Except String (Option String))
    (i : BatchGenerateInput) : Except String BatchGenerateOutput :=
  .ok (batchGenerateRun oracle i).1

/-! ## intelligent-fusion flow -/

/-- `z.enum(['seamless', 'collage', 'overlay', 'blend', 'composite'])`. -/
inductive FusionStyle where
  | seamless
  | collage
  | overlay
  | blend
  | composite
deriving DecidableEq

/-- `z.enum(['conservative', 'balanced', 'creative', 'experimental'])`. -/
inductive CreativityLevel where
  | conservative
  | balanced
  | creative
  | experimental
deriving DecidableEq

def CreativityLevel.str : CreativityLevel → String
  | .conservative => "conservative"
  | .balanced => "balanced"
  | .creative => "creative"
  | .experimental => "experimental"

def FusionStyle.str : FusionStyle → String
  | .seamless => "seamless"
  | .collage => "collage"
  | .overlay => "overlay"
  | .blend => "blend"
  | .composite => "composite"

structure IntelligentFusionInput where
  images : List String
  fusionPrompt : String
  aspectRatio : AspectRatio
  fusionStyle : FusionStyle
  dominantImage : Option Int := Option.none
  creativityLevel : CreativityLevel

structure FusionTechnicalDetails where
  primaryElements : List String
  fusionTechnique : String
  aspectRatioHandling : String
deriving DecidableEq

structure IntelligentFusionOutput where
  fusedImage : String
  fusionDescription : String
  technicalDetails : FusionTechnicalDetails
deriving DecidableEq

/-- The constraint `IntelligentFusionInputSchema` adds beyond the field types:
`images: z.array(z.string()).min(2).max(4)`. -/
def fusionInputValid (i : IntelligentFusionInput) : Bool :=
  2 ≤ i.images.length && i.images.length ≤ 4

/-- `fusionInstructions` selected by the `switch (input.fusionStyle)`. -/
def fusionInstructions : FusionStyle → String
  | .seamless => "Create a seamless blend where all images flow naturally together with smooth transitions and unified lighting."
  | .collage => "Arrange the images in an artistic collage layout with clear boundaries but harmonious composition."
  | .overlay => "Layer the images with creative overlays, transparency effects, and depth to create visual interest."
  | .blend => "Blend the images together using advanced mixing techniques, creating new visual relationships between elements."
  | .composite => "Create a professional composite combining the best elements from each image into a cohesive new design."

/-- `creativityInstructions` selected by the `switch (input.creativityLevel)`. -/
def creativityInstructions : CreativityLevel → String
  | .conservative => "Maintain the original character of each image while combining them respectfully."
  | .balanced => "Balance preservation of original elements with creative new combinations."
  | .creative => "Take creative liberties to produce something new and visually striking."
  | .experimental => "Push creative boundaries and experiment with unexpected combinations and effects."

/-- `dominantInstruction`: added exactly when `input.dominantImage` is
defined, with no validation of the index against `images`. -/
def dominantInstruction : Option Int → String
  | Option.none => ""
  | Option.some d => " Use image " ++ toString (d + 1) ++ " as the dominant base composition."

/-- The `analysisPrompt` of the first (text-model) call. -/
def analysisPrompt (i : IntelligentFusionInput) : String :=
  "Analyze these " ++ toString i.images.length
    ++ " images and describe:\n1. The main subject/content of each image\n2. The artistic style and visual characteristics\n3. The lighting and color palette\n4. How they could be best combined for a "
    ++ i.fusionStyle.str
    ++ " fusion\n5. Potential challenges in combining them\n\nTarget fusion goal: "
    ++ i.fusionPrompt ++ "\nCreativity level: " ++ i.creativityLevel.str

/-- The `fusionPrompt` template of the second (image-model) call, given the
analysis call's response text. -/
def fusionPromptText (i : IntelligentFusionInput) (analysisText : String) : String :=
  i.fusionPrompt ++ "\n\nFUSION SPECIFICATIONS:\n- Style: "
    ++ fusionInstructions i.fusionStyle
    ++ "\n- Creativity: " ++ creativityInstructions i.creativityLevel
    ++ "\n- Aspect ratio: exactly " ++ i.aspectRatio.str
    ++ dominantInstruction i.dominantImage
    ++ "\n- Ensure all elements work together harmoniously\n- Maintain high visual quality and professional finish\n\nANALYSIS CONTEXT: "
    ++ analysisText

/-- The fusion flow's image-call `system` instruction string. -/
def fusionSystem (ar : AspectRatio) : String :=
  "You are a master digital artist specializing in intelligent image fusion. You excel at combining multiple images into cohesive, visually stunning compositions using advanced AI-guided techniques.\n\n"
    ++ (if ar = .r9x16 then
      "Create a vertical 9:16 composition. Ensure all fused elements fit perfectly within the vertical frame with proper spacing and composition."
    else
      "Create a composition with exact aspect ratio " ++ ar.str ++ ". Optimize the layout for this specific format.")
    ++ "\n\nYour expertise includes:\n- Advanced composition techniques\n- Seamless element integration  \n- Professional color harmony\n- Visual flow and hierarchy\n- Technical precision in fusion"

/-- The kind of each provider call the fusion flow makes, in order. -/
inductive CallKind where
  | textGen
  | imageGen
deriving DecidableEq

/-- Outcomes of the fusion flow's two provider calls: the analysis text call
and the image-generation call. -/
structure FusionOracle where
  analysis : Except String String
  gen : Except String (Option String)

/-- The body of `intelligentFusionFlow`: the analysis call (uncaught, so a
throw aborts the flow), then the fusion image call; a falsy `media?.url`
throws the flow's explicit error.  Also returns the trace of issued provider
calls. -/
def intelligentFusionBody (o : FusionOracle) (i : IntelligentFusionInput) :
    Except String IntelligentFusionOutput × List CallKind :=
  match o.analysis with
  | .error e => (.error e, [.textGen])
  | .ok _ =>
    match o.gen with
    | .error e => (.error e, [.textGen, .imageGen])
    | .ok m =>
      if truthy m then
        (.ok
          { fusedImage := m.getD ""
            fusionDescription := "Successfully fused " ++ toString i.images.length
              ++ " images using " ++ i.fusionStyle.str ++ " technique with "
              ++ i.creativityLevel.str ++ " creativity level."
            technicalDetails :=
              { primaryElements :=
                  (List.range i.images.length).map
                    (fun idx => "Elements from image " ++ toString (idx + 1))
                fusionTechnique := i.fusionStyle.str
                aspectRatioHandling := "Optimized for " ++ i.aspectRatio.str ++ " format" } },
          [.textGen, .imageGen])
      else (.error "Intelligent fusion failed to generate image.", [.textGen, .imageGen])

/-- `intelligentFusion`: Genkit validates the flow input against
`IntelligentFusionInputSchema` before the flow body runs, so an images array
outside 2–4 entries is rejected with no provider call made. -/
def intelligentFusion (o : FusionOracle) (i : IntelligentFusionInput) :
    Except String IntelligentFusionOutput × List CallKind :=
  if fusionInputValid i then intelligentFusionBody o i
  else (.error "Schema validation failed", [])

/-! ## src/app/actions.ts -/

/-- The uniform `{success: boolean, …}` result of every server action:
`ok` carries the success payload (`success: true`), `fail` carries
`{success: false, error}`. -/
inductive ActionResult (α : Type) where
  | ok (value : α)
  | fail (error : String)
deriving DecidableEq

/-- The `success` field of the returned object. -/
def ActionResult.success {α : Type} : ActionResult α → Bool
  | .ok _ => true
  | .fail _ => false

/-- The `error` field of the returned object (absent on success). -/
def ActionResult.errorMsg {α : Type} : ActionResult α → Option String
  | .ok _ => Option.none
  | .fail e => Option.some e

/-- The thrown error's message, when the flow threw. -/
def exceptError {α : Type} : Except String α → Option String
  | .error e => Option.some e
  | .ok _ => Option.none

/-- Whether the flow returned normally. -/
def exceptOk {α : Type} : Except String α → Bool
  | .error _ => false
  | .ok _ => true

/-- The shared `try/catch` shape of all five action handlers. -/
def runAction {α : Type} : Except String α → ActionResult α
  | .ok v => .ok v
  | .error e => .fail e

/-- `optimizePromptAction` (the wrapped flow never throws, so the try body
always succeeds). -/
def optimizePromptAction (oracle : Except String (Option String))
    (input : OptimizePromptInput) : ActionResult OptimizePromptOutput :=
  runAction (.ok (optimizePromptFlow oracle input))

/-- `generateThumbnailAction`. -/
def generateThumbnailAction (oracle : GenRequest → Except String (Option String))
    (input : GenerateThumbnailFromPromptInput) :
    ActionResult GenerateThumbnailFromPromptOutput :=
  runAction (generateThumbnailFromPromptFlow oracle input)

/-- `editThumbnailAction`. -/
def editThumbnailAction (oracle : GenRequest → Except String (Option String))
    (input : IterativelyEditThumbnailInput) :
    ActionResult IterativelyEditThumbnailOutput :=
  runAction (iterativelyEditThumbnailFlow oracle input)

/-- `batchGenerateAction`. -/
def batchGenerateAction (oracle : Nat → Except String (Option String))
    (input : BatchGenerateInput) : ActionResult BatchGenerateOutput :=
  runAction (batchGenerateFlow oracle input)

/-- `intelligentFusionAction`. -/
def intelligentFusionAction (o : FusionOracle) (input : IntelligentFusionInput) :
    ActionResult IntelligentFusionOutput :=
  runAction (intelligentFusion o input).1

/-! ## UI page component (src/unnamed/part_000): state handlers -/

/-- `consistencyMode` of the UI page: `'character' | 'style' | 'none'`. -/
inductive UIConsistencyMode where
  | character
  | style
  | none
deriving DecidableEq

/-- One `generationHistory` entry: `{prompt, image, timestamp, aspectRatio}`. -/
structure HistoryEntry where
  prompt : String
  image : String
  timestamp : Nat
  aspectRatio : String
deriving DecidableEq

/-- The page component's state (the `useState` hooks the handlers touch). -/
structure UIState where
  uploadedImages : List String
  prompt : String
  optimizedPrompt : String
  aspectRatio : AspectRatio
  generatedThumbnail : Option String
  editPrompt : String
  generationHistory : List HistoryEntry
  selectedStyleReference : String
  consistencyMode : UIConsistencyMode
deriving DecidableEq

/-- `handleOptimizePrompt`: guarded on a non-empty `prompt`; clears
`optimizedPrompt` and `generatedThumbnail`, then installs the action's
optimized prompt on success. -/
def handleOptimizePrompt (result : ActionResult String) (s : UIState) : UIState :=
  if s.prompt == "" then s
  else
    match result with
    | .ok t => { s with optimizedPrompt := t, generatedThumbnail := Option.none }
    | .fail _ => { s with optimizedPrompt := "", generatedThumbnail := Option.none }

/-- `handleGenerate`: guarded on a non-empty `optimizedPrompt`; clears
`generatedThumbnail`, then on success installs the thumbnail and appends one
`{prompt, image, timestamp, aspectRatio}` entry to `generationHistory`; on
failure only the toast fires. -/
def handleGenerate (now : Nat) (result : ActionResult String) (s : UIState) : UIState :=
  if s.optimizedPrompt == "" then s
  else
    match result with
    | .ok thumb =>
      { s with generatedThumbnail := Option.some thumb
               generationHistory := s.generationHistory
                 ++ [⟨s.optimizedPrompt, thumb, now, s.aspectRatio.str⟩] }
    | .fail _ => { s with generatedThumbnail := Option.none }

/-- `handleEdit`: guarded on a non-empty `editPrompt` and an existing
`generatedThumbnail`; on success replaces the thumbnail and clears the edit
prompt. -/
def handleEdit (result : ActionResult String) (s : UIState) : UIState :=
  if s.editPrompt == "" ∨ s.generatedThumbnail = Option.none then s
  else
    match result with
    | .ok thumb => { s with generatedThumbnail := Option.some thumb, editPrompt := "" }
    | .fail _ => s

/-- `handleRemoveImage`: drops the uploaded image at `index`. -/
def handleRemoveImage (index : Nat) (s : UIState) : UIState :=
  { s with uploadedImages :=
      (s.uploadedImages.enum.filter (fun p => p.1 ≠ index)).map (·.2) }

/-! ## Concrete inputs used by witnesses and counterexamples -/

/-- A concrete generator input. -/
def wGenInput : GenerateThumbnailFromPromptInput :=
  { prompt := "red car on a beach", aspectRatio := .r16x9 }

/-- A concrete editor input. -/
def wEditInput : IterativelyEditThumbnailInput :=
  { baseImage := "imgdata", prompt := "make the text bigger", aspectRatio := .r1x1 }

/-- A concrete optimizer input. -/
def wOptInput : OptimizePromptInput :=
  { prompt := "red car on a beach", aspectRatio := .r1x1 }

/-- A concrete batch input with three prompts. -/
def wBatchInput : BatchGenerateInput :=
  { prompts := ["a", "b", "c"], basePrompt := "base", aspectRatio := .r16x9
    consistencyMode := .none }

/-- A concrete batch oracle failing exactly on item 1. -/
def wBatchOracle : Nat → Except String (Option String) :=
  fun i => if i = 1 then .error "boom" else .ok (Option.some "img")

/-- A concrete batch input with no prompts. -/
def wEmptyBatchInput : BatchGenerateInput :=
  { prompts := [], basePrompt := "b", aspectRatio := .r1x1, consistencyMode := .none }

/-- A concrete fusion input with a single image (below the schema minimum). -/
def wFusionInput : IntelligentFusionInput :=
  { images := ["one"], fusionPrompt := "fuse them", aspectRatio := .r16x9
    fusionStyle := .seamless, creativityLevel := .balanced }

/-- A concrete fusion oracle where both calls succeed. -/
def wFusionOracle : FusionOracle :=
  { analysis := .ok "analysis text", gen := .ok (Option.some "img") }

/-- A concrete UI state with a non-empty optimized prompt. -/
def wUIState : UIState :=
  { uploadedImages := ["u"], prompt := "p", optimizedPrompt := "opt"
    aspectRatio := .r1x1, generatedThumbnail := Option.none, editPrompt := ""
    generationHistory := [], selectedStyleReference := "", consistencyMode := .none }

/-- A concrete batch input in `character` mode with no character reference. -/
def cexBatchInput : BatchGenerateInput :=
  { prompts := ["p"], basePrompt := "b", aspectRatio := .r16x9
    consistencyMode := .character }

/-! ## Helper lemmas -/

lemma strContains_mid (a m b : String) : strContains (a ++ m ++ b) m := by
  unfold strContains
  have h : (a ++ m ++ b).data = a.data ++ m.data ++ b.data := by
    simp [String.data_append]
  rw [h]
  exact List.infix_append a.data m.data b.data

lemma runAction_shape {α : Type} (r : Except String α) :
    (runAction r).success = exceptOk r ∧ (runAction r).errorMsg = exceptError r := by
  cases r <;>
    simp [runAction, exceptOk, exceptError, ActionResult.success, ActionResult.errorMsg]

lemma length_filter_ne_range (n k : Nat) (h : k < n) :
    ((List.range n).filter (fun i => i ≠ k)).length = n - 1 := by
  induction n with
  | zero => exact absurd h (Nat.not_lt_zero k)
  | succ n ih =>
    rw [List.range_succ, List.filter_append, List.length_append]
    by_cases hk : k = n
    · subst hk
      have h1 : (List.range k).filter (fun i => i ≠ k) = List.range k :=
        List.filter_eq_self.mpr (by
          intro a ha
          have hak : a < k := List.mem_range.mp ha
          simpa using Nat.ne_of_lt hak)
      have h2 : [k].filter (fun i => i ≠ k) = [] := by simp
      rw [h1, h2]
      simp
    · have hkn : k < n := by omega
      have hnk : n ≠ k := fun he => hk he.symm
      have h2 : [n].filter (fun i => i ≠ k) = [n] := by simp [hnk]
      rw [ih hkn, h2]
      simp
      omega

lemma batchLoop_ok_shape (oracle : Nat → Except String (Option String))
    (prompts : List String) (k : Nat) (url : Nat → String) :
    ∀ L : List Nat,
      (∀ i ∈ L, i ≠ k → oracle i = .ok (Option.some (url i)) ∧ url i ≠ "") →
      (∀ i ∈ L, i = k → ∃ e, oracle i = .error e) →
      (batchLoop oracle prompts L).1
        = (L.filter (fun i => i ≠ k)).map
            (fun i => (⟨url i, prompts.getD i "", i⟩ : BatchThumb)) := by
  intro L
  induction L with
  | nil => intro _ _; rfl
  | cons idx rest ih =>
    intro h1 h2
    have hrest := ih (fun i hi => h1 i (List.mem_cons_of_mem _ hi))
      (fun i hi => h2 i (List.mem_cons_of_mem _ hi))
    by_cases hik : idx = k
    · obtain ⟨e, he⟩ := h2 idx (List.mem_cons_self _ _) hik
      subst hik
      simp [batchLoop, he, hrest, List.filter_cons]
    · obtain ⟨ho, hne⟩ := h1 idx (List.mem_cons_self _ _) hik
      have ht : truthy (Option.some (url idx)) = true := by
        simp [truthy, hne]
      simp [batchLoop, ho, ht, hrest, List.filter_cons, hik]

/-! ## C1 -/

/-- C1: if the provider throws on exactly one batch item `k` and returns an
image payload for every other of the `N` items, the batch flow returns the
`N−1` successful `{image, prompt, index}` entries — every index except `k`,
in ascending index order, each carrying the input prompt of that index — and
`consistency_score = (N−1)/N`. -/
theorem batchGenerateFlow_one_failure (input : BatchGenerateInput)
    (oracle : Nat → Except String (Option String)) (k : Nat) (url : Nat → String)
    (hk : k < input.prompts.length)
    (hfail : ∃ e, oracle k = .error e)
    (hok : ∀ i, i < input.prompts.length → i ≠ k →
        oracle i = .ok (Option.some (url i)) ∧ url i ≠ "") :
    batchGenerateFlow oracle input
      = .ok { thumbnails :=
                ((List.range input.prompts.length).filter (fun i => i ≠ k)).map
                  (fun i => ⟨url i, input.prompts.getD i "", i⟩)
              consistency_score := Option.some
                (((input.prompts.length : ℚ) - 1) / (input.prompts.length : ℚ)) }
    ∧ (((List.range input.prompts.length).filter (fun i => i ≠ k)).map
          (fun i => (⟨url i, input.prompts.getD i "", i⟩ : BatchThumb))).length
        = input.prompts.length - 1 := by
  have hloop := batchLoop_ok_shape oracle input.prompts k url
    (List.range input.prompts.length)
    (fun i hi hne => hok i (List.mem_range.mp hi) hne)
    (fun i _ he => he ▸ hfail)
  have hlen := length_filter_ne_range input.prompts.length k hk
  have hmaplen : (((List.range input.prompts.length).filter (fun i => i ≠ k)).map
      (fun i => (⟨url i, input.prompts.getD i "", i⟩ : BatchThumb))).length
        = input.prompts.length - 1 := by
    rw [List.length_map]; exact hlen
  refine ⟨?_, hmaplen⟩
  unfold batchGenerateFlow batchGenerateRun
  rw [hloop, hmaplen]
  have h0 : (input.prompts.length : ℚ) ≠ 0 := Nat.cast_ne_zero.mpr (by omega)
  have hcast : ((input.prompts.length - 1 : ℕ) : ℚ) = (input.prompts.length : ℚ) - 1 := by
    rw [Nat.cast_sub (by omega : 1 ≤ input.prompts.length)]
    norm_num
  simp [jsDiv, h0, hcast]

/-- C1 witness: three prompts with the provider failing exactly on item 1
produce the two entries for indices 0 and 2 and a score of 2/3. -/
theorem batchGenerateFlow_one_failure_witness :
    batchGenerateFlow wBatchOracle wBatchInput
      = .ok { thumbnails :=
                ((List.range wBatchInput.prompts.length).filter (fun i => i ≠ 1)).map
                  (fun i => ⟨"img", wBatchInput.prompts.getD i "", i⟩)
              consistency_score := Option.some
                (((wBatchInput.prompts.length : ℚ) - 1) / (wBatchInput.prompts.length : ℚ)) }
    ∧ (((List.range wBatchInput.prompts.length).filter (fun i => i ≠ 1)).map
          (fun i => (⟨"img", wBatchInput.prompts.getD i "", i⟩ : BatchThumb))).length
        = wBatchInput.prompts.length - 1 := by
  have hok : ∀ i, i < wBatchInput.prompts.length → i ≠ 1 →
      wBatchOracle i = .ok (Option.some "img") ∧ ("img" : String) ≠ "" := by
    intro i hi hne
    have h3 : i < 3 := hi
    interval_cases i
    · exact ⟨rfl, by decide⟩
    · exact absurd rfl hne
    · exact ⟨rfl, by decide⟩
  exact batchGenerateFlow_one_failure wBatchInput wBatchOracle 1 (fun _ => "img")
    (by decide) ⟨"boom", rfl⟩ hok

/-! ## C3 -/

/-- C3: for every input to the thumbnail generator and to the iterative
editor, if the provider call completes but returns no usable image payload
(`media?.url` falsy), the flow throws its explicit error and the wrapping
action returns `{success: false, error}` rather than a success with empty
data. -/
theorem generate_edit_fail_without_image
    (gi : GenerateThumbnailFromPromptInput) (ei : IterativelyEditThumbnailInput)
    (m : Option String) (h : truthy m = false) :
    generateThumbnailAction (fun _ => .ok m) gi
        = .fail "Image generation did not return an image."
    ∧ (generateThumbnailAction (fun _ => .ok m) gi).success = false
    ∧ editThumbnailAction (fun _ => .ok m) ei
        = .fail "Failed to generate or edit thumbnail."
    ∧ (editThumbnailAction (fun _ => .ok m) ei).success = false := by
  refine ⟨?_, ?_, ?_, ?_⟩ <;>
    simp [generateThumbnailAction, editThumbnailAction,
      generateThumbnailFromPromptFlow, iterativelyEditThumbnailFlow, runAction, h,
      ActionResult.success]

/-- C3 witness: the generator and editor actions fail on a response with no
media url, at a concrete input. -/
theorem generate_edit_fail_without_image_witness :
    truthy Option.none = false
    ∧ (generateThumbnailAction (fun _ => .ok Option.none) wGenInput
          = .fail "Image generation did not return an image."
      ∧ (generateThumbnailAction (fun _ => .ok Option.none) wGenInput).success = false
      ∧ editThumbnailAction (fun _ => .ok Option.none) wEditInput
          = .fail "Failed to generate or edit thumbnail."
      ∧ (editThumbnailAction (fun _ => .ok Option.none) wEditInput).success = false) :=
  ⟨rfl, generate_edit_fail_without_image wGenInput wEditInput Option.none rfl⟩

lemma jsTrim_sandwich (x : String) (A S : List Char) (p : String) (c : Char)
    (A' : List Char) (hx : x.data = A ++ p.data ++ S) (hA : A = c :: A')
    (hc : c.isWhitespace = false)
    (hS : S.reverse.dropWhile Char.isWhitespace ≠ []) :
    (jsTrim x).data
      = A ++ p.data ++ (S.reverse.dropWhile Char.isWhitespace).reverse := by
  subst hA
  have h1 : x.data.dropWhile Char.isWhitespace = x.data := by
    rw [hx]
    have hsh : (c :: A') ++ p.data ++ S = c :: (A' ++ p.data ++ S) := by
      simp [List.cons_append, List.append_assoc]
    rw [hsh, List.dropWhile_cons, hc]
    simp
  have h2 : (jsTrim x).data
      = ((x.data.reverse).dropWhile Char.isWhitespace).reverse := by
    show (((x.data.dropWhile _).reverse).dropWhile _).reverse = _
    rw [h1]
  rw [h2, hx, List.reverse_append ((c :: A') ++ p.data) S, List.dropWhile_append]
  have hSE : (S.reverse.dropWhile Char.isWhitespace).isEmpty = false := by
    cases hE : S.reverse.dropWhile Char.isWhitespace with
    | nil => exact absurd hE hS
    | cons a l => rfl
  rw [hSE]
  simp [List.reverse_append, List.reverse_reverse, List.append_assoc]

lemma optimizeFallback_decomp (i : OptimizePromptInput) (tail : String)
    (htail : (if providedImagesCount i ≠ 0 then
        "Incorporate the provided reference images appropriately." else "") = tail)
    (hS : ((". ".data ++ tail.data).reverse.dropWhile Char.isWhitespace) ≠ []) :
    (optimizeFallback i).data
      = ("Create an eye-catching thumbnail. Aspect ratio: ".data
          ++ i.aspectRatio.str.data
          ++ ". Crop to fit with no padding or black bars. Emphasize strong composition (rule of thirds, leading lines), clear subject separation, and dramatic lighting. Reflect the following intent: ".data)
        ++ i.prompt.data
        ++ (((". ".data ++ tail.data).reverse.dropWhile Char.isWhitespace).reverse) := by
  apply jsTrim_sandwich _ _ _ _ 'C'
    ("reate an eye-catching thumbnail. Aspect ratio: ".data
      ++ i.aspectRatio.str.data
      ++ ". Crop to fit with no padding or black bars. Emphasize strong composition (rule of thirds, leading lines), clear subject separation, and dramatic lighting. Reflect the following intent: ".data)
  · rw [← htail]
    simp only [String.data_append, List.append_assoc]
  · rw [show ("Create an eye-catching thumbnail. Aspect ratio: ".data)
        = 'C' :: "reate an eye-catching thumbnail. Aspect ratio: ".data from rfl]
    simp [List.cons_append, List.append_assoc]
  · decide
  · exact hS

/-! ## C2 -/

/-- C2: whenever the optimizer's text-model call throws or returns no usable
text, the flow still succeeds and returns exactly the deterministic local
fallback template, and that fallback contains the original user prompt and
the selected aspect-ratio string. -/
theorem optimize_fallback_on_failure (input : OptimizePromptInput)
    (oracle : Except String (Option String))
    (h : (∃ e, oracle = .error e)
       ∨ ∃ t, oracle = .ok t ∧ truthy t = false) :
    optimizePromptFlow oracle input = ⟨optimizeFallback input⟩
    ∧ strContains (optimizeFallback input) input.prompt
    ∧ strContains (optimizeFallback input) input.aspectRatio.str := by
  have hdec : ∃ T : List Char,
      (optimizeFallback input).data
        = ("Create an eye-catching thumbnail. Aspect ratio: ".data
            ++ input.aspectRatio.str.data
            ++ ". Crop to fit with no padding or black bars. Emphasize strong composition (rule of thirds, leading lines), clear subject separation, and dramatic lighting. Reflect the following intent: ".data)
          ++ input.prompt.data ++ T := by
    by_cases hn : providedImagesCount input ≠ 0
    · exact ⟨_, optimizeFallback_decomp input
        "Incorporate the provided reference images appropriately."
        (by rw [if_pos hn]) (by decide)⟩
    · exact ⟨_, optimizeFallback_decomp input "" (by rw [if_neg hn]) (by decide)⟩
  obtain ⟨T, hT⟩ := hdec
  refine ⟨?_, ⟨_, T, hT.symm⟩, ?_⟩
  · rcases h with ⟨e, he⟩ | ⟨t, ht, htr⟩
    · rw [he]; rfl
    · rw [ht]; simp [optimizePromptFlow, htr]
  · refine ⟨"Create an eye-catching thumbnail. Aspect ratio: ".data,
      ". Crop to fit with no padding or black bars. Emphasize strong composition (rule of thirds, leading lines), clear subject separation, and dramatic lighting. Reflect the following intent: ".data
        ++ (input.prompt.data ++ T), ?_⟩
    rw [hT]
    simp [List.append_assoc]

/-- C2 witness: with a throwing oracle at a concrete input the flow returns
the fallback, which contains the prompt and the ratio string. -/
theorem optimize_fallback_on_failure_witness :
    optimizePromptFlow (.error "quota") wOptInput = ⟨optimizeFallback wOptInput⟩
    ∧ strContains (optimizeFallback wOptInput) wOptInput.prompt
    ∧ strContains (optimizeFallback wOptInput) wOptInput.aspectRatio.str :=
  optimize_fallback_on_failure wOptInput (.error "quota") (Or.inl ⟨"quota", rfl⟩)

/-! ## C4 -/

lemma strContains_of_eq (s a m b : String) (h : s = a ++ m ++ b) :
    strContains s m := by
  rw [h]; exact strContains_mid a m b

lemma strContains_lift (p x s m : String) (h : strContains x m) :
    strContains (p ++ x ++ s) m := by
  unfold strContains at h ⊢
  obtain ⟨u, v, huv⟩ := h
  refine ⟨p.data ++ u, v ++ s.data, ?_⟩
  simp only [String.data_append, ← huv, List.append_assoc]

/-- C4: for every aspect ratio in {16:9, 9:16, 1:1} the system instruction
built by the prompt optimizer, the thumbnail generator and the iterative
editor contains that exact ratio string; the wording branches only on the
aspect ratio: the 9:16 branch of each component carries the
no-cropping/reposition instruction, while the 16:9 and 1:1 branches carry
the crop-to-fit instruction. -/
theorem system_instruction_aspect_ratio :
    (∀ ar : AspectRatio,
      strContains (generateSystem ar) ar.str
      ∧ strContains (optimizeSystem ar) ar.str
      ∧ strContains (editSystem ar) ar.str)
    ∧ (strContains (generateSystem .r9x16)
        "Do NOT crop or cut any text or subjects; instead, scale and reposition elements so that all content remains fully inside the 9:16 frame with comfortable safe margins."
      ∧ strContains (optimizeSystem .r9x16)
        "Do NOT crop or cut any text or subjects; instead, scale and reposition elements so that all content remains fully inside the 9:16 frame with comfortable safe margins."
      ∧ strContains (editSystem .r9x16)
        "Do NOT crop or cut any text or subjects; instead, scale and reposition elements so that all content remains fully inside the 9:16 frame with comfortable safe margins.")
    ∧ (strContains (generateSystem .r16x9)
        "Crop the image to fit the requested aspect ratio if necessary."
      ∧ strContains (generateSystem .r1x1)
        "Crop the image to fit the requested aspect ratio if necessary."
      ∧ strContains (optimizeSystem .r16x9)
        "Crop the image to fit the requested aspect ratio if necessary."
      ∧ strContains (optimizeSystem .r1x1)
        "Crop the image to fit the requested aspect ratio if necessary."
      ∧ strContains (editSystem .r16x9)
        "Crop the image to fit the requested aspect ratio if necessary."
      ∧ strContains (editSystem .r1x1)
        "Crop the image to fit the requested aspect ratio if necessary.") := by
  have hOlift : ∀ ar m, strContains (ratioRule ar) m → strContains (optimizeSystem ar) m := by
    intro ar m h
    exact strContains_lift _ _ _ _ h
  refine ⟨fun ar => ?_, ⟨?_, ?_, ?_⟩, ?_, ?_, ?_, ?_, ?_, ?_⟩
  · cases ar
    · exact ⟨strContains_of_eq _
        "You are an expert image generator.\nYou MUST generate an image with an aspect ratio of EXACTLY "
        "16:9"
        ". Do not add any padding or black bars. Crop the image to fit the requested aspect ratio if necessary.\n"
        rfl,
      hOlift _ _ (strContains_of_eq _
        "The final image MUST have an aspect ratio of exactly "
        "16:9"
        ". Do not add any padding or black bars. Crop the image to fit the requested aspect ratio if necessary."
        rfl),
      strContains_of_eq _
        "You are an expert image editor.\nYou MUST edit the image to have an aspect ratio of EXACTLY "
        "16:9"
        ". Do not add any padding or black bars. Crop the image to fit the requested aspect ratio if necessary.\n"
        rfl⟩
    · exact ⟨strContains_of_eq _
        "You are an expert image generator.\nYou MUST generate an image with an aspect ratio of EXACTLY "
        "9:16"
        " (vertical). Do not add any padding or black bars. Do NOT crop or cut any text or subjects; instead, scale and reposition elements so that all content remains fully inside the 9:16 frame with comfortable safe margins.\n"
        rfl,
      hOlift _ _ (strContains_of_eq _
        "The final image MUST have an aspect ratio of exactly "
        "9:16"
        " (vertical). Do not add any padding or black bars. Do NOT crop or cut any text or subjects; instead, scale and reposition elements so that all content remains fully inside the 9:16 frame with comfortable safe margins."
        rfl),
      strContains_of_eq _
        "You are an expert image editor.\nYou MUST edit the image to have an aspect ratio of EXACTLY "
        "9:16"
        " (vertical). Do not add any padding or black bars. Do NOT crop or cut any text or subjects; instead, scale and reposition elements so that all content remains fully inside the 9:16 frame with comfortable safe margins.\n"
        rfl⟩
    · exact ⟨strContains_of_eq _
        "You are an expert image generator.\nYou MUST generate an image with an aspect ratio of EXACTLY "
        "1:1"
        ". Do not add any padding or black bars. Crop the image to fit the requested aspect ratio if necessary.\n"
        rfl,
      hOlift _ _ (strContains_of_eq _
        "The final image MUST have an aspect ratio of exactly "
        "1:1"
        ". Do not add any padding or black bars. Crop the image to fit the requested aspect ratio if necessary."
        rfl),
      strContains_of_eq _
        "You are an expert image editor.\nYou MUST edit the image to have an aspect ratio of EXACTLY "
        "1:1"
        ". Do not add any padding or black bars. Crop the image to fit the requested aspect ratio if necessary.\n"
        rfl⟩
  · exact strContains_of_eq _
      "You are an expert image generator.\nYou MUST generate an image with an aspect ratio of EXACTLY 9:16 (vertical). Do not add any padding or black bars. "
      "Do NOT crop or cut any text or subjects; instead, scale and reposition elements so that all content remains fully inside the 9:16 frame with comfortable safe margins."
      "\n"
      rfl
  · exact hOlift _ _ (strContains_of_eq _
      "The final image MUST have an aspect ratio of exactly 9:16 (vertical). Do not add any padding or black bars. "
      "Do NOT crop or cut any text or subjects; instead, scale and reposition elements so that all content remains fully inside the 9:16 frame with comfortable safe margins."
      ""
      rfl)
  · exact strContains_of_eq _
      "You are an expert image editor.\nYou MUST edit the image to have an aspect ratio of EXACTLY 9:16 (vertical). Do not add any padding or black bars. "
      "Do NOT crop or cut any text or subjects; instead, scale and reposition elements so that all content remains fully inside the 9:16 frame with comfortable safe margins."
      "\n"
      rfl
  · exact strContains_of_eq _
      "You are an expert image generator.\nYou MUST generate an image with an aspect ratio of EXACTLY 16:9. Do not add any padding or black bars. "
      "Crop the image to fit the requested aspect ratio if necessary."
      "\n"
      rfl
  · exact strContains_of_eq _
      "You are an expert image generator.\nYou MUST generate an image with an aspect ratio of EXACTLY 1:1. Do not add any padding or black bars. "
      "Crop the image to fit the requested aspect ratio if necessary."
      "\n"
      rfl
  · exact hOlift _ _ (strContains_of_eq _
      "The final image MUST have an aspect ratio of exactly 16:9. Do not add any padding or black bars. "
      "Crop the image to fit the requested aspect ratio if necessary."
      ""
      rfl)
  · exact hOlift _ _ (strContains_of_eq _
      "The final image MUST have an aspect ratio of exactly 1:1. Do not add any padding or black bars. "
      "Crop the image to fit the requested aspect ratio if necessary."
      ""
      rfl)
  · exact strContains_of_eq _
      "You are an expert image editor.\nYou MUST edit the image to have an aspect ratio of EXACTLY 16:9. Do not add any padding or black bars. "
      "Crop the image to fit the requested aspect ratio if necessary."
      "\n"
      rfl
  · exact strContains_of_eq _
      "You are an expert image editor.\nYou MUST edit the image to have an aspect ratio of EXACTLY 1:1. Do not add any padding or black bars. "
      "Crop the image to fit the requested aspect ratio if necessary."
      "\n"
      rfl

/-! ## C5 -/

/-- C5: every intelligent-fusion input whose images list has fewer than 2 or
more than 4 elements is rejected by the input schema before the flow body
runs, so no provider call is made (empty call trace). -/
theorem fusion_rejects_bad_image_count (o : FusionOracle)
    (i : IntelligentFusionInput)
    (h : i.images.length < 2 ∨ 4 < i.images.length) :
    intelligentFusion o i = (.error "Schema validation failed", []) := by
  have hv : fusionInputValid i = false := by
    rcases h with h | h
    · have hd : (decide (2 ≤ i.images.length)) = false := decide_eq_false (by omega)
      simp [fusionInputValid, hd]
    · have hd : (decide (i.images.length ≤ 4)) = false := decide_eq_false (by omega)
      simp [fusionInputValid, hd]
  simp [intelligentFusion, hv]

/-- C5 witness: a one-image fusion input is rejected with no provider call. -/
theorem fusion_rejects_bad_image_count_witness :
    (wFusionInput.images.length < 2 ∨ 4 < wFusionInput.images.length)
    ∧ intelligentFusion wFusionOracle wFusionInput
        = (.error "Schema validation failed", []) :=
  ⟨Or.inl (by decide),
   fusion_rejects_bad_image_count wFusionOracle wFusionInput (Or.inl (by decide))⟩

/-! ## C6 -/

/-- C6: each of the five action handlers wraps its flow in the shared
try/catch shape: the action's `success` flag is true exactly when the wrapped
flow returned normally, its `error` field is exactly the thrown error's
message and is absent on success (and the optimizer flow never throws, so its
action always succeeds).  The `ActionResult` type is the only error signal
exposed. -/
theorem actions_uniform_result_shape
    (o1 : Except String (Option String)) (i1 : OptimizePromptInput)
    (o2 : GenRequest → Except String (Option String))
    (i2 : GenerateThumbnailFromPromptInput)
    (o3 : GenRequest → Except String (Option String))
    (i3 : IterativelyEditThumbnailInput)
    (o4 : Nat → Except String (Option String)) (i4 : BatchGenerateInput)
    (o5 : FusionOracle) (i5 : IntelligentFusionInput) :
    ((optimizePromptAction o1 i1).success = true
      ∧ (optimizePromptAction o1 i1).errorMsg = Option.none)
    ∧ ((generateThumbnailAction o2 i2).success
          = exceptOk (generateThumbnailFromPromptFlow o2 i2)
      ∧ (generateThumbnailAction o2 i2).errorMsg
          = exceptError (generateThumbnailFromPromptFlow o2 i2))
    ∧ ((editThumbnailAction o3 i3).success
          = exceptOk (iterativelyEditThumbnailFlow o3 i3)
      ∧ (editThumbnailAction o3 i3).errorMsg
          = exceptError (iterativelyEditThumbnailFlow o3 i3))
    ∧ ((batchGenerateAction o4 i4).success = exceptOk (batchGenerateFlow o4 i4)
      ∧ (batchGenerateAction o4 i4).errorMsg = exceptError (batchGenerateFlow o4 i4))
    ∧ ((intelligentFusionAction o5 i5).success = exceptOk (intelligentFusion o5 i5).1
      ∧ (intelligentFusionAction o5 i5).errorMsg
          = exceptError (intelligentFusion o5 i5).1) :=
  ⟨⟨rfl, rfl⟩, runAction_shape _, runAction_shape _, runAction_shape _,
    runAction_shape _⟩

/-! ## C7 -/

/-- C7: on a successful generation the UI history grows by exactly one
`{prompt, image, timestamp, aspectRatio}` entry appended at the end; on a
failed generation, and under every other handler (optimize, edit, remove
image), the history list is unchanged — existing entries are never mutated or
removed. -/
theorem history_append_only (s : UIState) (now index : Nat) (t e : String)
    (h : (s.optimizedPrompt == "") = false) :
    (handleGenerate now (.ok t) s).generationHistory
        = s.generationHistory ++ [⟨s.optimizedPrompt, t, now, s.aspectRatio.str⟩]
    ∧ (handleGenerate now (.fail e) s).generationHistory = s.generationHistory
    ∧ (handleOptimizePrompt (.ok t) s).generationHistory = s.generationHistory
    ∧ (handleOptimizePrompt (.fail e) s).generationHistory = s.generationHistory
    ∧ (handleEdit (.ok t) s).generationHistory = s.generationHistory
    ∧ (handleEdit (.fail e) s).generationHistory = s.generationHistory
    ∧ (handleRemoveImage index s).generationHistory = s.generationHistory := by
  refine ⟨?_, ?_, ?_, ?_, ?_, ?_, ?_⟩
  · simp [handleGenerate, h]
  · simp [handleGenerate, h]
  · unfold handleOptimizePrompt; split <;> rfl
  · unfold handleOptimizePrompt; split <;> rfl
  · unfold handleEdit; split <;> rfl
  · unfold handleEdit; split <;> rfl
  · rfl

/-- C7 witness: at a concrete state with a non-empty optimized prompt. -/
theorem history_append_only_witness :
    ((wUIState.optimizedPrompt == "") = false)
    ∧ ((handleGenerate 7 (.ok "thumb") wUIState).generationHistory
          = wUIState.generationHistory
            ++ [⟨wUIState.optimizedPrompt, "thumb", 7, wUIState.aspectRatio.str⟩]
      ∧ (handleGenerate 7 (.fail "err") wUIState).generationHistory
          = wUIState.generationHistory
      ∧ (handleOptimizePrompt (.ok "thumb") wUIState).generationHistory
          = wUIState.generationHistory
      ∧ (handleOptimizePrompt (.fail "err") wUIState).generationHistory
          = wUIState.generationHistory
      ∧ (handleEdit (.ok "thumb") wUIState).generationHistory
          = wUIState.generationHistory
      ∧ (handleEdit (.fail "err") wUIState).generationHistory
          = wUIState.generationHistory
      ∧ (handleRemoveImage 0 wUIState).generationHistory
          = wUIState.generationHistory) :=
  ⟨rfl, history_append_only wUIState 7 0 "thumb" "err" rfl⟩

/-! ## C8 -/

/-- C8: on the input with zero prompts the batch flow issues no provider call
(empty call trace) and its success-ratio division is `0/0`, which is not a
valid ratio (modelled as `none`, JS `NaN`): at least one prompt is required
for `consistency_score` to be a well-defined rational number. -/
theorem batch_empty_prompts_no_calls_score_nan
    (oracle : Nat → Except String (Option String)) (i : BatchGenerateInput)
    (h : i.prompts = []) :
    batchGenerateRun oracle i
      = ({ thumbnails := [], consistency_score := Option.none }, []) := by
  simp [batchGenerateRun, h, List.range_zero, batchLoop, jsDiv]

/-- C8 witness: the empty batch input makes no call and yields no score. -/
theorem batch_empty_prompts_no_calls_score_nan_witness :
    wEmptyBatchInput.prompts = []
    ∧ batchGenerateRun wBatchOracle wEmptyBatchInput
        = ({ thumbnails := [], consistency_score := Option.none }, []) :=
  ⟨rfl, batch_empty_prompts_no_calls_score_nan wBatchOracle wEmptyBatchInput rfl⟩

/-! ## C9 -/

/-- C9 counterexample: with consistencyMode `character` but no
characterReference the issued request is NOT identical to the one with
consistencyMode `none`: the system instruction still interpolates the mode
name into its consistency-focus line, so the two requests differ at this
concrete input. -/
theorem batch_character_no_ref_request_differs :
    batchRequest cexBatchInput 0
      ≠ batchRequest { cexBatchInput with consistencyMode := ConsistencyMode.none } 0 := by
  intro h
  have hneq : (batchSystem cexBatchInput).length
      ≠ (batchSystem { cexBatchInput with consistencyMode := ConsistencyMode.none }).length := by
    decide
  exact hneq (congrArg (fun r => r.system.length) h)

/-- C9 amended: with consistencyMode `character` but no characterReference
(or `style` but no styleReference) no consistency instruction sentence is
appended and no reference image is attached, so the prompt parts of the
request are identical to consistencyMode `none`; the system instruction,
however, still interpolates the mode name, so the full request is not
identical to `none`. -/
theorem batch_character_no_ref_prompt_identical (i : BatchGenerateInput) (idx : Nat)
    (h : (i.consistencyMode = ConsistencyMode.character
            ∧ truthy i.characterReference = false)
       ∨ (i.consistencyMode = ConsistencyMode.style
            ∧ truthy i.styleReference = false)) :
    consistencyInstruction i = ""
    ∧ consistencyInstruction i
        = consistencyInstruction { i with consistencyMode := ConsistencyMode.none }
    ∧ referenceImages i = []
    ∧ referenceImages i
        = referenceImages { i with consistencyMode := ConsistencyMode.none }
    ∧ (batchRequest i idx).parts
        = (batchRequest { i with consistencyMode := ConsistencyMode.none } idx).parts
    ∧ (batchRequest i idx).system
        ≠ (batchRequest { i with consistencyMode := ConsistencyMode.none } idx).system := by
  have hciN : consistencyInstruction { i with consistencyMode := ConsistencyMode.none }
      = "" := by
    simp [consistencyInstruction]
  have hriN : referenceImages { i with consistencyMode := ConsistencyMode.none }
      = [] := by
    simp [referenceImages]
  have hci : consistencyInstruction i = "" := by
    rcases h with ⟨hm, hr⟩ | ⟨hm, hr⟩ <;> simp [consistencyInstruction, hm, hr]
  have hri : referenceImages i = [] := by
    rcases h with ⟨hm, hr⟩ | ⟨hm, hr⟩ <;> simp [referenceImages, hm, hr]
  refine ⟨hci, by rw [hci, hciN], hri, by rw [hri, hriN], ?_, ?_⟩
  · simp [batchRequest, enhancedPrompt, hci, hciN, hri, hriN]
  · intro heq
    have hl := congrArg String.length heq
    rcases h with ⟨hm, _⟩ | ⟨hm, _⟩ <;>
      · simp [batchRequest, batchSystem, hm, ConsistencyMode.str,
          String.length_append] at hl
        exact absurd hl (by decide)

/-- C9 amended witness: at the concrete character-mode input without a
reference image. -/
theorem batch_character_no_ref_prompt_identical_witness :
    consistencyInstruction cexBatchInput = ""
    ∧ consistencyInstruction cexBatchInput
        = consistencyInstruction { cexBatchInput with consistencyMode := ConsistencyMode.none }
    ∧ referenceImages cexBatchInput = []
    ∧ referenceImages cexBatchInput
        = referenceImages { cexBatchInput with consistencyMode := ConsistencyMode.none }
    ∧ (batchRequest cexBatchInput 0).parts
        = (batchRequest { cexBatchInput with consistencyMode := ConsistencyMode.none } 0).parts
    ∧ (batchRequest cexBatchInput 0).system
        ≠ (batchRequest { cexBatchInput with consistencyMode := ConsistencyMode.none } 0).system :=
  batch_character_no_ref_prompt_identical cexBatchInput 0 (Or.inl ⟨rfl, rfl⟩)

/-! ## C10 -/

/-- C10: the fusion flow never validates `dominantImage` against the images
list: schema validation and the flow's behaviour are unchanged by any defined
index (negative or out of range included), and the built fusion prompt embeds
the sentence `Use image <dominantImage + 1> as the dominant base
composition.`; when `dominantImage` is undefined the dominant instruction is
the empty string, so no such sentence is added. -/
theorem fusion_dominant_index_unvalidated
    (i : IntelligentFusionInput) (d : Int) (t : String) (o : FusionOracle) :
    fusionInputValid { i with dominantImage := Option.some d } = fusionInputValid i
    ∧ intelligentFusion o { i with dominantImage := Option.some d }
        = intelligentFusion o { i with dominantImage := Option.none }
    ∧ dominantInstruction (Option.some d)
        = " Use image " ++ toString (d + 1) ++ " as the dominant base composition."
    ∧ dominantInstruction Option.none = ""
    ∧ strContains (fusionPromptText { i with dominantImage := Option.some d } t)
        (" Use image " ++ toString (d + 1) ++ " as the dominant base composition.") := by
  refine ⟨rfl, rfl, rfl, rfl, ?_⟩
  have hdec : fusionPromptText { i with dominantImage := Option.some d } t
      = (i.fusionPrompt ++ "\n\nFUSION SPECIFICATIONS:\n- Style: "
          ++ fusionInstructions i.fusionStyle ++ "\n- Creativity: "
          ++ creativityInstructions i.creativityLevel
          ++ "\n- Aspect ratio: exactly " ++ i.aspectRatio.str)
        ++ (" Use image " ++ toString (d + 1) ++ " as the dominant base composition.")
        ++ ("\n- Ensure all elements work together harmoniously\n- Maintain high visual quality and professional finish\n\nANALYSIS CONTEXT: "
          ++ t) := by
    simp only [fusionPromptText, dominantInstruction, String.append_assoc]
  rw [hdec]
  exact strContains_mid _ _ _

end AIThumb
